import Mathlib

set_option maxHeartbeats 4000000

/-!
Shallow embedding of the PKI secrets-engine core (role store, name validator,
creation-bundle builder, certificate template factory, CA lifecycle handlers)
from `builtin/logical/pki/cert_util.go` and the two role/CA path files of the
repository, together with theorems settling the specification claims.

Go `time.Duration` values are modelled as `Int` nanoseconds; DER byte blobs and
public-key material are modelled as abstract `Nat` identities; external
collaborators (the `certutil` PEM/JSON codecs, `time.ParseDuration`,
`net.ParseIP`, the system TTL accessors) are passed in as explicit function
arguments, mirroring the spec's "external collaborators, specified only at
their interface".
-/

namespace Pki

/-- Membership of a character in a string (Go `strings.Contains` with a
one-character pattern; every separator used by the source is one character). -/
def strHasChar (s : String) (c : Char) : Bool := s.toList.any (fun x => x == c)

/-- Split a character list at every occurrence of `sep`, accumulator style;
`acc` holds the current field reversed. -/
def splitChars (sep : Char) : List Char → List Char → List (List Char)
  | [], acc => [acc.reverse]
  | c :: rest, acc =>
    if c == sep then acc.reverse :: splitChars sep rest []
    else splitChars sep rest (c :: acc)

/-- Go `strings.Split` with a one-character separator: the empty string yields
one empty field, and `n` separators yield `n + 1` fields. -/
def strSplit (sep : Char) (s : String) : List String :=
  (splitChars sep s.toList []).map String.mk

/-- Go `strings.HasPrefix`. -/
def strStartsWith (s pre : String) : Bool := pre.toList.isPrefixOf s.toList

/-- Go `strings.HasSuffix`. -/
def strEndsWith (s suf : String) : Bool := suf.toList.isSuffixOf s.toList

/-- Drop the first `n` characters of a string (Go slicing `s[n:]`; the source
only slices after an ASCII prefix, where bytes and characters coincide). -/
def strDrop (s : String) (n : Nat) : String := String.mk (s.toList.drop n)

/-- Drop the last `n` characters of a string. -/
def strDropLast (s : String) (n : Nat) : String :=
  String.mk (s.toList.take (s.toList.length - n))

/-- ASCII alphanumeric test, the `[a-zA-Z0-9]` character class of the hostname
regular expression compiled in `validateNames` (cert_util.go line 137). -/
def isAlnumChar (c : Char) : Bool := c.isAlpha || c.isDigit

/-- Tail of a regex label after its first character: every character is
alphanumeric or a hyphen, and the final character is alphanumeric. -/
def labelMid : List Char → Bool
  | [] => true
  | [c] => isAlnumChar c
  | c :: rest => (isAlnumChar c || c == '-') && labelMid rest

/-- One dot-separated label of the hostname regex: a single alphanumeric
character, or an alphanumeric character followed by `labelMid`. -/
def labelOk (l : String) : Bool :=
  match l.toList with
  | [] => false
  | [c] => isAlnumChar c
  | c :: rest => isAlnumChar c && labelMid rest

/-- The hostname regex of `validateNames`:
dot-separated labels, each matching `[a-zA-Z0-9]|[a-zA-Z0-9][a-zA-Z0-9-]*[a-zA-Z0-9]`.
The empty string matches no label and is therefore rejected. -/
def hostnameMatch (s : String) : Bool := (strSplit '.' s).all labelOk

/-- Go `strings.TrimSuffix`: remove the suffix when present. -/
def trimSuffixStr (s suf : String) : String :=
  if strEndsWith s suf then strDropLast s suf.length else s

/-- Go `strings.Contains` on strings. -/
def strContains (s pat : String) : Bool :=
  (List.range (s.length + 1)).any (fun i => pat.toList.isPrefixOf (s.toList.drop i))

/-- The role entry of the role store (part_000, `type roleEntry struct`).
Defaults are the Go zero values, used when a struct literal omits a field.
The final two fields (`UseCSRCommonName`, `MaxPathLength`) are read by
`generateCreationBundle` in cert_util.go; the copy of the struct declaration
in the sources predates them, so they are carried here with the three-state
optional path length described in the spec. -/
structure RoleEntry where
  LeaseMax : String := ""
  Lease : String := ""
  MaxTTL : String := ""
  TTL : String := ""
  AllowLocalhost : Bool := false
  AllowedBaseDomain : String := ""
  AllowBaseDomain : Bool := false
  AllowTokenDisplayName : Bool := false
  AllowSubdomains : Bool := false
  AllowAnyName : Bool := false
  EnforceHostnames : Bool := false
  AllowIPSANs : Bool := false
  ServerFlag : Bool := false
  ClientFlag : Bool := false
  CodeSigningFlag : Bool := false
  EmailProtectionFlag : Bool := false
  KeyType : String := ""
  KeyBits : Int := 0
  UseCSRCommonName : Bool := false
  MaxPathLength : Option Int := none
deriving DecidableEq

/-- The per-name decision chain of `validateNames` (cert_util.go lines
141-238) over its pre-computed boolean conditions.  Reading the arguments:
role flags `epf aan alh asd atd abd ehn`; then the string-derived conditions
`containsAt` (name contains an `@`), `splitBad` (the `@`-split does not have
exactly two parts), `hostMatch` (the sanitized name matches the hostname
regex), `lhEq` (name, or the email domain, equals `localhost`), `dnSub`
(sanitized name is a regex-valid strict subdomain of the display name),
`wcBase` (wildcard whose remainder equals the allowed base domain), `dnEq`
(name, or the email domain, equals the display name), `bdEq` (name, or the
email domain, equals the allowed base domain), `bdSub` (sanitized name is a
regex-valid strict subdomain of the allowed base domain), `abdNE` (the
allowed base domain is non-empty).  `false` is the Go `return name, nil`
rejection, `true` the `continue`. -/
def nameOkCore (epf aan alh asd atd abd ehn containsAt splitBad hostMatch
    lhEq dnSub wcBase dnEq bdEq bdSub abdNE : Bool) : Bool :=
  if containsAt && !epf && !aan then false
  else if containsAt && splitBad then false
  else if ehn && !hostMatch then false
  else if aan then true
  else if alh && lhEq then true
  else if alh && asd && dnSub then true
  else if alh && asd && wcBase then true
  else if atd && dnEq then true
  else if atd && asd && dnSub then true
  else if atd && asd && wcBase then true
  else if abdNE && abd && bdEq then true
  else if abdNE && asd && bdSub then true
  else if abdNE && asd && wcBase then true
  else false

/-- Admissibility of one requested name under a role, translated from the loop
body of `validateNames` (cert_util.go lines 141-238).  The local values mirror
the Go locals: `sanitized` is the name, replaced by the email domain part when
the name contains `@`, then stripped of a leading `*.`. -/
def nameOk (displayName : String) (role : RoleEntry) (name : String) : Bool :=
  let containsAt := strHasChar name '@'
  let sp := strSplit '@' name
  let domainPart := sp.getD 1 ""
  let sanitized0 := if containsAt then domainPart else name
  let emailDomain := if containsAt then domainPart else name
  let isWildcard := strStartsWith sanitized0 "*."
  let sanitized := if isWildcard then strDrop sanitized0 2 else sanitized0
  nameOkCore role.EmailProtectionFlag role.AllowAnyName role.AllowLocalhost
    role.AllowSubdomains role.AllowTokenDisplayName role.AllowBaseDomain
    role.EnforceHostnames
    containsAt (sp.length != 2) (hostnameMatch sanitized)
    (name == "localhost" || (containsAt && emailDomain == "localhost"))
    (strEndsWith sanitized ("." ++ displayName) &&
      hostnameMatch (trimSuffixStr sanitized ("." ++ displayName)))
    (isWildcard && sanitized == role.AllowedBaseDomain)
    (name == displayName || (containsAt && emailDomain == displayName))
    (name == role.AllowedBaseDomain ||
      (containsAt && emailDomain == role.AllowedBaseDomain))
    (strEndsWith sanitized ("." ++ role.AllowedBaseDomain) &&
      hostnameMatch (trimSuffixStr sanitized ("." ++ role.AllowedBaseDomain)))
    (role.AllowedBaseDomain.length != 0)

/-- `validateNames` (cert_util.go lines 136-242): returns the first rejected
name, or `none` when every requested name passes the role's toggles. -/
def validateNames (displayName : String) (names : List String)
    (role : RoleEntry) : Option String :=
  match names with
  | [] => none
  | name :: rest =>
    if nameOk displayName role name then validateNames displayName rest role
    else some name

/-- Set `AllowLocalhost` (leaving every other role field unchanged). -/
def setAllowLocalhost (r : RoleEntry) : RoleEntry := { r with AllowLocalhost := true }

/-- Set `AllowBaseDomain`. -/
def setAllowBaseDomain (r : RoleEntry) : RoleEntry := { r with AllowBaseDomain := true }

/-- Set `AllowTokenDisplayName`. -/
def setAllowTokenDisplayName (r : RoleEntry) : RoleEntry := { r with AllowTokenDisplayName := true }

/-- Set `AllowSubdomains`. -/
def setAllowSubdomains (r : RoleEntry) : RoleEntry := { r with AllowSubdomains := true }

/-- Set `AllowAnyName`. -/
def setAllowAnyName (r : RoleEntry) : RoleEntry := { r with AllowAnyName := true }

/-- Set `AllowIPSANs`. -/
def setAllowIPSANs (r : RoleEntry) : RoleEntry := { r with AllowIPSANs := true }

theorem bool_ite_true (c x : Bool) : (if c then true else x) = (c || x) := by
  cases c <;> simp

theorem bool_ite_false (c x : Bool) : (if c then false else x) = (!c && x) := by
  cases c <;> simp

/-- The decision chain written as gate conjunctions followed by a disjunction
of the acceptance clauses. -/
theorem nameOkCore_eq (epf aan alh asd atd abd ehn containsAt splitBad
    hostMatch lhEq dnSub wcBase dnEq bdEq bdSub abdNE : Bool) :
    nameOkCore epf aan alh asd atd abd ehn containsAt splitBad hostMatch
      lhEq dnSub wcBase dnEq bdEq bdSub abdNE =
    (!(containsAt && !epf && !aan) && (!(containsAt && splitBad) &&
      (!(ehn && !hostMatch) &&
      (aan || (alh && lhEq || (alh && asd && dnSub || (alh && asd && wcBase ||
        (atd && dnEq || (atd && asd && dnSub || (atd && asd && wcBase ||
        (abdNE && abd && bdEq || (abdNE && asd && bdSub ||
        abdNE && asd && wcBase)))))))))))) := by
  simp only [nameOkCore, bool_ite_true, bool_ite_false, Bool.or_false]

theorem nameOkCore_mono_aan (epf aan alh asd atd abd ehn containsAt splitBad
    hostMatch lhEq dnSub wcBase dnEq bdEq bdSub abdNE : Bool) :
    nameOkCore epf aan alh asd atd abd ehn containsAt splitBad hostMatch
      lhEq dnSub wcBase dnEq bdEq bdSub abdNE = true →
    nameOkCore epf true alh asd atd abd ehn containsAt splitBad hostMatch
      lhEq dnSub wcBase dnEq bdEq bdSub abdNE = true := by
  intro h
  rw [nameOkCore_eq] at h ⊢
  simp only [Bool.not_true, Bool.and_false, Bool.not_false, Bool.true_and,
    Bool.true_or, Bool.and_eq_true, Bool.or_eq_true] at h ⊢
  obtain ⟨h1, h2, h3, hd⟩ := h
  exact ⟨h2, h3, trivial⟩

theorem nameOkCore_mono_alh (epf aan alh asd atd abd ehn containsAt splitBad
    hostMatch lhEq dnSub wcBase dnEq bdEq bdSub abdNE : Bool) :
    nameOkCore epf aan alh asd atd abd ehn containsAt splitBad hostMatch
      lhEq dnSub wcBase dnEq bdEq bdSub abdNE = true →
    nameOkCore epf aan true asd atd abd ehn containsAt splitBad hostMatch
      lhEq dnSub wcBase dnEq bdEq bdSub abdNE = true := by
  intro h
  rw [nameOkCore_eq] at h ⊢
  simp only [Bool.true_and, Bool.and_eq_true, Bool.or_eq_true] at h ⊢
  obtain ⟨h1, h2, h3, hd⟩ := h
  refine ⟨h1, h2, h3, ?_⟩
  rcases hd with h'|h'|h'|h'|h'|h'|h'|h'|h'|h' <;> simp_all

theorem nameOkCore_mono_asd (epf aan alh asd atd abd ehn containsAt splitBad
    hostMatch lhEq dnSub wcBase dnEq bdEq bdSub abdNE : Bool) :
    nameOkCore epf aan alh asd atd abd ehn containsAt splitBad hostMatch
      lhEq dnSub wcBase dnEq bdEq bdSub abdNE = true →
    nameOkCore epf aan alh true atd abd ehn containsAt splitBad hostMatch
      lhEq dnSub wcBase dnEq bdEq bdSub abdNE = true := by
  intro h
  rw [nameOkCore_eq] at h ⊢
  simp only [Bool.true_and, Bool.and_true, Bool.and_eq_true, Bool.or_eq_true] at h ⊢
  obtain ⟨h1, h2, h3, hd⟩ := h
  refine ⟨h1, h2, h3, ?_⟩
  rcases hd with h'|h'|h'|h'|h'|h'|h'|h'|h'|h' <;> simp_all

theorem nameOkCore_mono_atd (epf aan alh asd atd abd ehn containsAt splitBad
    hostMatch lhEq dnSub wcBase dnEq bdEq bdSub abdNE : Bool) :
    nameOkCore epf aan alh asd atd abd ehn containsAt splitBad hostMatch
      lhEq dnSub wcBase dnEq bdEq bdSub abdNE = true →
    nameOkCore epf aan alh asd true abd ehn containsAt splitBad hostMatch
      lhEq dnSub wcBase dnEq bdEq bdSub abdNE = true := by
  intro h
  rw [nameOkCore_eq] at h ⊢
  simp only [Bool.true_and, Bool.and_eq_true, Bool.or_eq_true] at h ⊢
  obtain ⟨h1, h2, h3, hd⟩ := h
  refine ⟨h1, h2, h3, ?_⟩
  rcases hd with h'|h'|h'|h'|h'|h'|h'|h'|h'|h' <;> simp_all

theorem nameOkCore_mono_abd (epf aan alh asd atd abd ehn containsAt splitBad
    hostMatch lhEq dnSub wcBase dnEq bdEq bdSub abdNE : Bool) :
    nameOkCore epf aan alh asd atd abd ehn containsAt splitBad hostMatch
      lhEq dnSub wcBase dnEq bdEq bdSub abdNE = true →
    nameOkCore epf aan alh asd atd true ehn containsAt splitBad hostMatch
      lhEq dnSub wcBase dnEq bdEq bdSub abdNE = true := by
  intro h
  rw [nameOkCore_eq] at h ⊢
  simp only [Bool.true_and, Bool.and_eq_true, Bool.or_eq_true] at h ⊢
  obtain ⟨h1, h2, h3, hd⟩ := h
  refine ⟨h1, h2, h3, ?_⟩
  rcases hd with h'|h'|h'|h'|h'|h'|h'|h'|h'|h' <;> simp_all

/-- Per-name monotonicity: flipping any one of the six `Allow*` toggles to
`true` preserves acceptance of a name. -/
theorem nameOk_mono (u : RoleEntry → RoleEntry)
    (hu : u ∈ [setAllowLocalhost, setAllowBaseDomain, setAllowTokenDisplayName,
      setAllowSubdomains, setAllowAnyName, setAllowIPSANs])
    (displayName : String) (role : RoleEntry) (name : String) :
    nameOk displayName role name = true →
    nameOk displayName (u role) name = true := by
  intro h
  simp only [List.mem_cons, List.not_mem_nil, or_false] at hu
  rcases hu with hu | hu | hu | hu | hu | hu <;> subst hu
  · simp only [nameOk, setAllowLocalhost] at h ⊢
    exact nameOkCore_mono_alh _ _ _ _ _ _ _ _ _ _ _ _ _ _ _ _ _ h
  · simp only [nameOk, setAllowBaseDomain] at h ⊢
    exact nameOkCore_mono_abd _ _ _ _ _ _ _ _ _ _ _ _ _ _ _ _ _ h
  · simp only [nameOk, setAllowTokenDisplayName] at h ⊢
    exact nameOkCore_mono_atd _ _ _ _ _ _ _ _ _ _ _ _ _ _ _ _ _ h
  · simp only [nameOk, setAllowSubdomains] at h ⊢
    exact nameOkCore_mono_asd _ _ _ _ _ _ _ _ _ _ _ _ _ _ _ _ _ h
  · simp only [nameOk, setAllowAnyName] at h ⊢
    exact nameOkCore_mono_aan _ _ _ _ _ _ _ _ _ _ _ _ _ _ _ _ _ h
  · simp only [nameOk, setAllowIPSANs] at h ⊢
    exact h

/-- Claim C3: the name validator is monotone in the role's `Allow*` flags.
For every role, caller display name, and list of names, if `validateNames`
accepts a name under the role, it still accepts that name after flipping any
one of `AllowLocalhost`, `AllowBaseDomain`, `AllowTokenDisplayName`,
`AllowSubdomains`, `AllowAnyName`, or `AllowIPSANs` from false to true; no
accepted name becomes rejected, and a list with no rejected name still has
no rejected name. -/
theorem claim3_validateNames_monotone (u : RoleEntry → RoleEntry)
    (hu : u ∈ [setAllowLocalhost, setAllowBaseDomain, setAllowTokenDisplayName,
      setAllowSubdomains, setAllowAnyName, setAllowIPSANs])
    (displayName : String) (role : RoleEntry) (names : List String)
    (name : String) :
    (nameOk displayName role name = true →
      nameOk displayName (u role) name = true) ∧
    (validateNames displayName names role = none →
      validateNames displayName names (u role) = none) := by
  refine ⟨nameOk_mono u hu displayName role name, ?_⟩
  induction names with
  | nil => intro _; rfl
  | cons n rest ih =>
    intro h
    cases hcn : nameOk displayName role n with
    | false => simp [validateNames, hcn] at h
    | true =>
      have hcn' := nameOk_mono u hu displayName role n hcn
      simp only [validateNames, hcn, if_true] at h
      simp only [validateNames, hcn', if_true]
      exact ih h

/-- The strict role of spec scenario 1 (`web`): base domain `example.com`,
subdomains allowed, base domain itself not allowed, hostnames enforced, all
remaining toggles at their request-schema defaults. -/
def webRole : RoleEntry :=
  { AllowLocalhost := true
    AllowedBaseDomain := "example.com"
    AllowBaseDomain := false
    AllowTokenDisplayName := false
    AllowSubdomains := true
    AllowAnyName := false
    EnforceHostnames := true
    AllowIPSANs := true
    ServerFlag := true
    ClientFlag := true
    CodeSigningFlag := false
    EmailProtectionFlag := false
    KeyType := "rsa"
    KeyBits := 2048 }

/-- Witness for C3 at a concrete instance: flipping `AllowAnyName` on the
strict role preserves acceptance of `localhost`. -/
theorem claim3_validateNames_monotone_witness :
    (nameOk "token-display" webRole "localhost" = true →
      nameOk "token-display" (setAllowAnyName webRole) "localhost" = true) ∧
    (validateNames "token-display" ["localhost"] webRole = none →
      validateNames "token-display" ["localhost"] (setAllowAnyName webRole) = none) :=
  claim3_validateNames_monotone setAllowAnyName
    (List.Mem.tail _ (List.Mem.tail _ (List.Mem.tail _ (List.Mem.tail _
      (List.Mem.head _)))))
    "token-display" webRole ["localhost"] "localhost"

example : nameOk "token-display" webRole "foo.example.com" = true := by decide
example : nameOk "token-display" webRole "*.example.com" = true := by decide
example : nameOk "token-display" webRole "example.com" = false := by decide
example : nameOk "token-display" webRole "foo..example.com" = false := by decide
example : nameOk "token-display" webRole "localhost" = true := by decide
example : nameOk "token-display" webRole ".example.com" = false := by decide
example : nameOk "x" { webRole with EmailProtectionFlag := true }
    "ops@example.com" = false := by decide
example : nameOk "x" { webRole with EmailProtectionFlag := true }
    "ops@foo.example.com" = true := by decide

deriving instance DecidableEq for Except

/-- The two error classes of the backend: `certutil.UserError` (returned as a
response-level error) and `certutil.InternalError` (a transport-level
failure). -/
inductive CUErr
  | user (msg : String)
  | internal (msg : String)
deriving DecidableEq

/-- `urlEntries`: the URL set encoded into certificates. -/
structure URLEntries where
  issuingCertificates : List String := []
  crlDistributionPoints : List String := []
  ocspServers : List String := []
deriving DecidableEq

/-- `certutil.PrivateKeyType`; `unknown` is `certutil.UnknownPrivateKey`, the
empty-string zero value. -/
inductive PKType
  | rsa
  | ec
  | unknown
deriving DecidableEq

/-- The fields of a parsed `x509.Certificate` read by this core.  Public-key
material is an abstract identity: two equal values model
`reflect.DeepEqual` of the underlying keys. -/
structure XCert where
  publicKey : Nat := 0
  isCA : Bool := false
  notAfter : Int := 0
  maxPathLen : Int := 0
deriving DecidableEq

/-- `caInfoBundle`: the signing context (CA certificate, its DER bytes, the
type of its private key, and the configured URL set). -/
structure SigningInfo where
  certificate : XCert := {}
  certificateBytes : Nat := 0
  privateKeyType : PKType := .unknown
  urls : URLEntries := {}
deriving DecidableEq

/-- The fields of a parsed `x509.CertificateRequest` read by
`generateCreationBundle`. -/
structure CSRInfo where
  subjectCommonName : String := ""
deriving DecidableEq

/-- The request fields read by `generateCreationBundle` via
`data.Get`/`data.GetOk`: `none` models a field absent from the raw request
data (`GetOk` reports `ok == false`), while `common_name` defaults to the
empty string. -/
structure ReqData where
  commonName : String := ""
  altNames : Option String := none
  ipSans : Option String := none
  ttl : Option String := none
deriving DecidableEq

/-- The external collaborators of the builder, passed at their interface:
`time.ParseDuration` (nanosecond results), the two system TTL accessors of
`b.System()`, `net.ParseIP` (an abstract address identity), the result of
`getURLs`, and `time.Now()`. -/
structure SysView where
  parseDuration : String → Except String Int
  defaultLeaseTTL : Int
  maxLeaseTTL : Int
  parseIP : String → Option Nat
  urlEntriesResult : Except String (Option URLEntries)
  now : Int

/-- `certCreationBundle` (cert_util.go lines 35-55); defaults are the Go zero
values of a struct literal. -/
structure CertCreationBundle where
  commonName : String := ""
  dnsNames : List String := []
  emailAddresses : List String := []
  ipAddresses : List Nat := []
  isCA : Bool := false
  keyType : String := ""
  keyBits : Int := 0
  signingBundle : Option SigningInfo := none
  ttl : Int := 0
  usage : Nat := 0
  useCSRValues : Bool := false
  urls : URLEntries := {}
  maxPathLength : Int := 0
deriving DecidableEq

/-- Name partitioning of `generateCreationBundle` (cert_util.go lines
352-371): the CN goes to the email list when it contains `@`, else to the DNS
list; then each comma-separated `alt_names` entry is examined, and — exactly
as the source does — for an entry containing `@` the *CN* is appended to the
email list, while an entry without `@` is appended (with its own value) to
the DNS list. -/
def partitionNames (cn : String) (altNames : Option String) :
    List String × List String :=
  let dnsNames : List String := if strHasChar cn '@' then [] else [cn]
  let emailAddresses : List String := if strHasChar cn '@' then [cn] else []
  match altNames with
  | none => (dnsNames, emailAddresses)
  | some cnAlt =>
    if cnAlt.length != 0 then
      (strSplit ',' cnAlt).foldl
        (fun acc v =>
          if strHasChar v '@' then (acc.1, acc.2 ++ [cn])
          else (acc.1 ++ [v], acc.2))
        (dnsNames, emailAddresses)
    else (dnsNames, emailAddresses)

/-- TTL resolution of `generateCreationBundle` (cert_util.go lines 394-433):
the effective ttl string is the request's `ttl` when present, else
`role.TTL`; an empty string means the system default.  The maximum is
`role.MaxTTL`, or the system maximum when empty.  When the effective TTL
exceeds the maximum, it is capped silently only when the effective ttl
string was empty; otherwise the operation fails with a user error quoting
the maximum in seconds. -/
def resolveTTL (sys : SysView) (reqTTL : Option String)
    (roleTTL roleMaxTTL : String) : Except CUErr Int :=
  let ttlField := match reqTTL with | none => roleTTL | some s => s
  let ttlRes : Except CUErr Int :=
    if ttlField.length == 0 then .ok sys.defaultLeaseTTL
    else
      match sys.parseDuration ttlField with
      | .error e => .error (.user ("invalid requested ttl: " ++ e))
      | .ok v => .ok v
  match ttlRes with
  | .error e => .error e
  | .ok ttl =>
    let maxRes : Except CUErr Int :=
      if roleMaxTTL.length == 0 then .ok sys.maxLeaseTTL
      else
        match sys.parseDuration roleMaxTTL with
        | .error e => .error (.user ("invalid ttl: " ++ e))
        | .ok v => .ok v
    match maxRes with
    | .error e => .error e
    | .ok maxTTL =>
      if ttl > maxTTL then
        if ttlField.length == 0 then .ok maxTTL
        else
          .error (.user ("ttl is larger than maximum allowed (" ++
            toString (maxTTL / 1000000000) ++ ")"))
      else .ok ttl

/-- `generateCreationBundle` (cert_util.go lines 330-527): resolve the common
name, partition the names, parse IP SANs, resolve and bound the TTL, check
the CA expiration, vet the names, assemble the usage bitmask
(server 1, client 2, codeSigning 4, emailProtection 8), and fill in URLs and
the max path length. -/
def generateCreationBundle (sys : SysView) (role : RoleEntry)
    (signingBundle : Option SigningInfo) (csr : Option CSRInfo)
    (displayName : String) (data : ReqData) :
    Except CUErr CertCreationBundle :=
  let cnRes : Except CUErr String :=
    if data.commonName.length == 0 then
      match csr with
      | some c =>
        if role.UseCSRCommonName then .ok c.subjectCommonName
        else .error (.user "the common_name field must be supplied when \"use_csr_common_name\" is not specified in the role")
      | none => .error (.user "the common_name field is required")
    else .ok data.commonName
  match cnRes with
  | .error e => .error e
  | .ok cn =>
    let (dnsNames, emailAddresses) := partitionNames cn data.altNames
    let ipRes : Except CUErr (List Nat) :=
      match data.ipSans with
      | none => .ok []
      | some ipAlt =>
        if ipAlt.length != 0 then
          if !role.AllowIPSANs then
            .error (.user ("IP Subject Alternative Names are not allowed in this role, but was provided " ++ ipAlt))
          else
            (strSplit ',' ipAlt).foldl
              (fun acc v =>
                match acc with
                | .error e => .error e
                | .ok l =>
                  match sys.parseIP v with
                  | none => .error (.user ("the value \x27" ++ v ++ "\x27 is not a valid IP address"))
                  | some ip => .ok (l ++ [ip]))
              (.ok [])
        else .ok []
    match ipRes with
    | .error e => .error e
    | .ok ipAddresses =>
      match resolveTTL sys data.ttl role.TTL role.MaxTTL with
      | .error e => .error e
      | .ok ttl =>
        let caExpiry : Except CUErr Unit :=
          match signingBundle with
          | some sb =>
            if sys.now + ttl > sb.certificate.notAfter then
              .error (.user "cannot satisfy request, as TTL is beyond the expiration of the CA certificate")
            else .ok ()
          | none => .ok ()
        match caExpiry with
        | .error e => .error e
        | .ok _ =>
          match validateNames displayName dnsNames role with
          | some badName =>
            .error (.user ("name " ++ badName ++ " not allowed by this role"))
          | none =>
            match validateNames displayName emailAddresses role with
            | some badName =>
              .error (.user ("email " ++ badName ++ " not allowed by this role"))
            | none =>
              let usage : Nat :=
                (if role.ServerFlag then 1 else 0) |||
                (if role.ClientFlag then 2 else 0) |||
                (if role.CodeSigningFlag then 4 else 0) |||
                (if role.EmailProtectionFlag then 8 else 0)
              let creationBundle : CertCreationBundle :=
                { commonName := cn
                  dnsNames := dnsNames
                  emailAddresses := emailAddresses
                  ipAddresses := ipAddresses
                  keyType := role.KeyType
                  keyBits := role.KeyBits
                  signingBundle := signingBundle
                  ttl := ttl
                  usage := usage }
              match signingBundle with
              | some sb =>
                if sb.certificate.maxPathLen == 0 then
                  .error (.user "signing CA has a max path length of zero")
                else
                  let creationBundle := { creationBundle with urls := sb.urls }
                  match role.MaxPathLength with
                  | some m => .ok { creationBundle with maxPathLength := m }
                  | none =>
                    if sb.certificate.maxPathLen < 0 then
                      .ok { creationBundle with maxPathLength := -1 }
                    else if sb.certificate.maxPathLen == 0 then
                      .error (.user "signing CA has a max path length of zero")
                    else
                      .ok { creationBundle with
                        maxPathLength := sb.certificate.maxPathLen - 1 }
              | none =>
                match sys.urlEntriesResult with
                | .error e =>
                  .error (.internal ("unable to fetch URL information: " ++ e))
                | .ok entriesOpt =>
                  let entries :=
                    match entriesOpt with
                    | none => ({} : URLEntries)
                    | some u => u
                  let creationBundle := { creationBundle with urls := entries }
                  match role.MaxPathLength with
                  | none => .ok { creationBundle with maxPathLength := -1 }
                  | some m => .ok { creationBundle with maxPathLength := m }

/-- A system view for concrete evaluations: no request `ttl`/`ip_sans` are
supplied, the system TTLs are zero, and no URL set is configured. -/
def demoSys : SysView :=
  { parseDuration := fun _ => .error "unknown unit"
    defaultLeaseTTL := 0
    maxLeaseTTL := 0
    parseIP := fun _ => none
    urlEntriesResult := .ok none
    now := 0 }

/-- A permissive role (`allow_any_name`) used to drive concrete issuance
evaluations through `generateCreationBundle`. -/
def anyNameRole : RoleEntry :=
  { AllowLocalhost := true
    AllowAnyName := true
    AllowIPSANs := true
    ServerFlag := true
    ClientFlag := true
    KeyType := "rsa"
    KeyBits := 2048 }

/-- Claim C1: the claim states that an `alt_names` entry containing `@` is
appended *with its own value* to `EmailAddresses`.  The code instead appends
the common name: at `common_name = "example.com"`,
`alt_names = "foo@bar.com"`, the partition puts `"example.com"` — not
`"foo@bar.com"` — into the email list, and the creation bundle produced by
`generateCreationBundle` carries `EmailAddresses = ["example.com"]`.  The
spec's design notes flag exactly this as a bug in the source, so the claim is
right and the code is wrong. -/
theorem claim1_alt_names_partition :
    partitionNames "example.com" (some "foo@bar.com") =
      (["example.com"], ["example.com"]) ∧
    ("foo@bar.com" ∈ (partitionNames "example.com" (some "foo@bar.com")).2 →
      False) ∧
    (generateCreationBundle demoSys anyNameRole none none "display"
        { commonName := "example.com", altNames := some "foo@bar.com" }).map
      (fun b => b.emailAddresses) = .ok ["example.com"] := by
  decide

/-- A concrete `time.ParseDuration` fragment for the TTL scenarios. -/
def demoParse : String → Except String Int := fun s =>
  if s == "48h" then .ok 172800000000000
  else if s == "24h" then .ok 86400000000000
  else if s == "1h" then .ok 3600000000000
  else .error "unknown unit"

/-- A system view whose duration parser understands the demo durations. -/
def demoSysTTL : SysView :=
  { parseDuration := demoParse
    defaultLeaseTTL := 0
    maxLeaseTTL := 0
    parseIP := fun _ => none
    urlEntriesResult := .ok none
    now := 0 }

/-- Counterexample to claim C2 as stated: with no `ttl` in the request,
`role.TTL = "48h"` and `role.MaxTTL = "24h"`, the TTL is derived (it came
from `role.TTL`, not the request), so the claim says it is silently capped
to the maximum; the code instead fails with the user error quoting the
maximum in seconds. -/
theorem claim2_counterexample :
    resolveTTL demoSysTTL none "48h" "24h" =
      .error (.user "ttl is larger than maximum allowed (86400)") ∧
    resolveTTL demoSysTTL none "48h" "24h" ≠ .ok 86400000000000 := by
  decide

theorem strLenZeroIff (s : String) : (s.length == 0) = true ↔ s = "" := by
  constructor
  · intro h
    have hb : s.length = 0 := by simpa using h
    have hl : s.data.length = 0 := hb
    apply String.ext
    rw [List.length_eq_zero.mp hl]
  · intro h
    subst h
    rfl

/-- Claim C2 (amended): the effective TTL is the request's `ttl` if present,
else `role.TTL`, else the system default; the maximum is `role.MaxTTL` if
set, else the system max.  When the effective TTL exceeds the maximum it is
silently capped only when the effective ttl *string* is empty — i.e. the
request did not supply one and `role.TTL` is empty, so the value came from
the system default; whenever a non-empty ttl string was in play — supplied
in the request *or* taken from `role.TTL` — the operation fails with a user
error. -/
theorem claim2_ttl_resolution (sys : SysView) (reqTTL : Option String)
    (roleTTL roleMaxTTL : String) (tMax : Int)
    (hmax : (roleMaxTTL = "" ∧ tMax = sys.maxLeaseTTL) ∨
      (roleMaxTTL ≠ "" ∧ sys.parseDuration roleMaxTTL = Except.ok tMax)) :
    ((reqTTL = none ∨ reqTTL = some "") → roleTTL = "" →
      sys.defaultLeaseTTL > tMax →
      resolveTTL sys reqTTL roleTTL roleMaxTTL = .ok tMax) ∧
    (∀ t, reqTTL = none → roleTTL ≠ "" →
      sys.parseDuration roleTTL = .ok t → t > tMax →
      resolveTTL sys reqTTL roleTTL roleMaxTTL =
        .error (.user ("ttl is larger than maximum allowed (" ++
          toString (tMax / 1000000000) ++ ")"))) ∧
    (∀ t s, reqTTL = some s → s ≠ "" →
      sys.parseDuration s = .ok t → t > tMax →
      resolveTTL sys reqTTL roleTTL roleMaxTTL =
        .error (.user ("ttl is larger than maximum allowed (" ++
          toString (tMax / 1000000000) ++ ")"))) := by
  refine ⟨?_, ?_, ?_⟩
  · rintro hreq rfl hgt
    rcases hmax with ⟨rfl, rfl⟩ | ⟨hmne, hmparse⟩
    · rcases hreq with rfl | rfl <;> simp [resolveTTL, hgt]
    · have hmlen : (roleMaxTTL.length == 0) = false := by
        rcases h : (roleMaxTTL.length == 0) with _ | _
        · rfl
        · exact absurd ((strLenZeroIff roleMaxTTL).mp h) hmne
      rcases hreq with rfl | rfl <;> simp [resolveTTL, hmlen, hmparse, hgt]
  · rintro t rfl hne hparse hgt
    have hlen : (roleTTL.length == 0) = false := by
      rcases h : (roleTTL.length == 0) with _ | _
      · rfl
      · exact absurd ((strLenZeroIff roleTTL).mp h) hne
    rcases hmax with ⟨rfl, rfl⟩ | ⟨hmne, hmparse⟩
    · simp [resolveTTL, hlen, hparse, hgt]
    · have hmlen : (roleMaxTTL.length == 0) = false := by
        rcases h : (roleMaxTTL.length == 0) with _ | _
        · rfl
        · exact absurd ((strLenZeroIff roleMaxTTL).mp h) hmne
      simp [resolveTTL, hlen, hparse, hmlen, hmparse, hgt]
  · rintro t s rfl hne hparse hgt
    have hlen : (s.length == 0) = false := by
      rcases h : (s.length == 0) with _ | _
      · rfl
      · exact absurd ((strLenZeroIff s).mp h) hne
    rcases hmax with ⟨rfl, rfl⟩ | ⟨hmne, hmparse⟩
    · simp [resolveTTL, hlen, hparse, hgt]
    · have hmlen : (roleMaxTTL.length == 0) = false := by
        rcases h : (roleMaxTTL.length == 0) with _ | _
        · rfl
        · exact absurd ((strLenZeroIff roleMaxTTL).mp h) hmne
      simp [resolveTTL, hlen, hparse, hmlen, hmparse, hgt]

/-- Witness for C2 at concrete inputs: a request-supplied `ttl = "48h"`
against `role.MaxTTL = "24h"` fails with the user error. -/
theorem claim2_ttl_resolution_witness :
    resolveTTL demoSysTTL (some "48h") "" "24h" =
      .error (.user "ttl is larger than maximum allowed (86400)") :=
  (claim2_ttl_resolution demoSysTTL (some "48h") "" "24h" 86400000000000
    (Or.inr ⟨by decide, by decide⟩)).2.2 172800000000000 "48h" rfl
    (by decide) (by decide) (by decide)

/-- Claim C7: the strict-role scenario.  Under role `web`
(`AllowedBaseDomain = "example.com"`, `AllowSubdomains`, no
`AllowBaseDomain`, hostnames enforced) and an unrelated display name:
`foo.example.com` and `*.example.com` are accepted; `example.com` is
rejected, and issuing that CN fails with the user error
`name example.com not allowed by this role`; `foo..example.com` is rejected
because the hostname regex fails. -/
theorem claim7_strict_role_scenario :
    nameOk "token-display" webRole "foo.example.com" = true ∧
    nameOk "token-display" webRole "*.example.com" = true ∧
    nameOk "token-display" webRole "example.com" = false ∧
    validateNames "token-display" ["example.com"] webRole =
      some "example.com" ∧
    generateCreationBundle demoSys webRole none none "token-display"
        { commonName := "example.com" } =
      .error (.user "name example.com not allowed by this role") ∧
    hostnameMatch "foo..example.com" = false ∧
    nameOk "token-display" webRole "foo..example.com" = false := by
  decide

/-- `x509.SignatureAlgorithm` values used by the source; `unknown` is the Go
zero value `UnknownSignatureAlgorithm`. -/
inductive SigAlg
  | sha256WithRSA
  | ecdsaWithSHA256
  | unknown
deriving DecidableEq

/-- `x509.ExtKeyUsage` values used by the source. -/
inductive EKU
  | serverAuth
  | clientAuth
  | codeSigning
  | emailProtection
  | ocspSigning
deriving DecidableEq

/-- The `x509.Certificate` template fields set by `createCertificate`
(cert_util.go lines 588-651).  `keyUsage` is the Go bitmask
(DigitalSignature 1, KeyEncipherment 4, KeyAgreement 16, CertSign 32,
CRLSign 64).  Defaults are the Go zero values. -/
structure CertTemplateM where
  commonName : String := ""
  notBefore : Int := 0
  notAfter : Int := 0
  keyUsage : Nat := 0
  basicConstraintsValid : Bool := false
  isCA : Bool := false
  maxPathLen : Int := 0
  maxPathLenZero : Bool := false
  dnsNames : List String := []
  emailAddresses : List String := []
  ipAddresses : List Nat := []
  extKeyUsage : List EKU := []
  sigAlg : SigAlg := .unknown
  issuingCertificateURL : List String := []
  crlDistributionPoints : List String := []
  ocspServer : List String := []
deriving DecidableEq

/-- The template assembly of `createCertificate` (cert_util.go lines
531-672).  Key material and the serial number are external randomness; what
is deterministic — the key-type/bits validation and every template field the
encoder reads — is modelled.  Go's `x509.CreateCertificate` encodes Basic
Constraints from `IsCA`/`MaxPathLen`/`MaxPathLenZero` when
`BasicConstraintsValid` is set, so the returned pair `(private key type,
template)` determines the produced certificate's basic constraints.  In the
CA-signed path (`SigningBundle` present) the template keeps its initial
`IsCA := false` and its zero `MaxPathLen`; only the self-signed path sets
`IsCA := true`, the CA key usages, OCSP signing, and the explicit-zero path
length encoding. -/
def createCertificateTemplate (now : Int) (ci : CertCreationBundle) :
    Except CUErr (PKType × CertTemplateM) :=
  let ptRes : Except CUErr PKType :=
    if ci.keyType == "rsa" then .ok .rsa
    else if ci.keyType == "ec" then
      if ci.keyBits == 224 || ci.keyBits == 256 || ci.keyBits == 384 ||
          ci.keyBits == 521 then .ok .ec
      else .error (.user ("unsupported bit length for EC key: " ++
        toString ci.keyBits))
    else .error (.user ("unknown key type: " ++ ci.keyType))
  match ptRes with
  | .error e => .error e
  | .ok pt =>
    let t : CertTemplateM :=
      { commonName := ci.commonName
        notBefore := now
        notAfter := now + ci.ttl
        keyUsage := 1 ||| 4 ||| 16
        basicConstraintsValid := true
        isCA := false
        dnsNames := ci.dnsNames
        emailAddresses := ci.emailAddresses
        ipAddresses := ci.ipAddresses }
    let t := { t with extKeyUsage :=
      (if ci.usage &&& 1 != 0 then [EKU.serverAuth] else []) ++
      (if ci.usage &&& 2 != 0 then [EKU.clientAuth] else []) ++
      (if ci.usage &&& 4 != 0 then [EKU.codeSigning] else []) ++
      (if ci.usage &&& 8 != 0 then [EKU.emailProtection] else []) }
    let t := { t with
      issuingCertificateURL := ci.urls.issuingCertificates
      crlDistributionPoints := ci.urls.crlDistributionPoints
      ocspServer := ci.urls.ocspServers }
    match ci.signingBundle with
    | some sb =>
      let t := { t with sigAlg :=
        match sb.privateKeyType with
        | .rsa => SigAlg.sha256WithRSA
        | .ec => SigAlg.ecdsaWithSHA256
        | .unknown => SigAlg.unknown }
      .ok (pt, t)
    | none =>
      let t :=
        if ci.maxPathLength == 0 then
          { t with maxPathLen := 0, maxPathLenZero := true }
        else { t with maxPathLen := ci.maxPathLength }
      let t := { t with sigAlg :=
        if ci.keyType == "rsa" then SigAlg.sha256WithRSA
        else if ci.keyType == "ec" then SigAlg.ecdsaWithSHA256
        else SigAlg.unknown }
      let t := { t with
        isCA := true
        keyUsage := t.keyUsage ||| 32 ||| 64
        extKeyUsage := t.extKeyUsage ++ [EKU.ocspSigning] }
      .ok (pt, t)

/-- An all-defaults signing context used in concrete evaluations. -/
def sbEmpty : SigningInfo := {}

/-- A creation bundle for the self-signed path with `IsCA` left false. -/
def c4Bundle : CertCreationBundle :=
  { commonName := "root"
    keyType := "rsa"
    keyBits := 2048
    isCA := false
    ttl := 3600
    maxPathLength := 5 }

/-- Counterexample to claim C4 as stated: `createCertificate` does not give
the certificate an `IsCA` equal to the bundle's.  In the self-signed path a
bundle with `IsCA = false` still yields a template with `IsCA = true`; in
the CA-signed-from-template path a bundle with `IsCA = true` yields a
template with `IsCA = false`; and in that path a CA bundle with
`MaxPathLength = 0` does not get the explicit-zero encoding. -/
theorem claim4_counterexample :
    c4Bundle.isCA = false ∧
    (createCertificateTemplate 0 c4Bundle).map (fun p => p.2.isCA) =
      .ok true ∧
    ({ c4Bundle with isCA := true, signingBundle := some sbEmpty } :
      CertCreationBundle).isCA = true ∧
    (createCertificateTemplate 0
        { c4Bundle with isCA := true, signingBundle := some sbEmpty }).map
      (fun p => p.2.isCA) = .ok false ∧
    (createCertificateTemplate 0
        { c4Bundle with
          isCA := true
          signingBundle := some sbEmpty
          maxPathLength := 0 }).map
      (fun p => p.2.maxPathLenZero) = .ok false := by
  decide

/-- Claim C4 (amended): every certificate template produced by
`createCertificate` has Basic Constraints valid; in the self-signed path
(`SigningBundle` absent) the certificate is a CA regardless of the bundle's
`IsCA`, and the explicit-zero path length encoding is emitted exactly when
`MaxPathLength = 0`; in the CA-signed-from-template path the certificate is
never a CA and the explicit-zero encoding is never emitted. -/
theorem claim4_basic_constraints (now : Int) (ci : CertCreationBundle)
    (pt : PKType) (t : CertTemplateM)
    (h : createCertificateTemplate now ci = .ok (pt, t)) :
    t.basicConstraintsValid = true ∧
    (ci.signingBundle = none →
      t.isCA = true ∧ (t.maxPathLenZero = true ↔ ci.maxPathLength = 0)) ∧
    (∀ sb, ci.signingBundle = some sb →
      t.isCA = false ∧ t.maxPathLenZero = false) := by
  simp only [createCertificateTemplate] at h
  split at h
  · exact absurd h (by simp)
  · cases hsb : ci.signingBundle with
    | some sb =>
      rw [hsb] at h
      simp only [Except.ok.injEq, Prod.mk.injEq] at h
      obtain ⟨-, ht⟩ := h
      subst ht
      simp [hsb]
    | none =>
      rw [hsb] at h
      rcases hz : ci.maxPathLength == 0 with _ | _
      · rw [hz] at h
        simp only [Bool.false_eq_true, if_false, Except.ok.injEq,
          Prod.mk.injEq] at h
        obtain ⟨-, ht⟩ := h
        subst ht
        have : ci.maxPathLength ≠ 0 := by
          intro hc
          rw [hc] at hz
          simp at hz
        simp [this]
      · rw [hz] at h
        simp only [if_true, Except.ok.injEq, Prod.mk.injEq] at h
        obtain ⟨-, ht⟩ := h
        subst ht
        have : ci.maxPathLength = 0 := by
          have := hz
          simpa using this
        simp [this]

/-- Witness for C4 at a concrete input: a self-signed CA bundle with
`MaxPathLength = 0`. -/
theorem claim4_basic_constraints_witness :
    (let r := createCertificateTemplate 0
      { c4Bundle with isCA := true, maxPathLength := 0 }
     ∃ pt t, r = .ok (pt, t) ∧
      (t.basicConstraintsValid = true ∧
        (({ c4Bundle with isCA := true, maxPathLength := 0 } :
            CertCreationBundle).signingBundle = none →
          t.isCA = true ∧ (t.maxPathLenZero = true ↔
            ({ c4Bundle with isCA := true, maxPathLength := 0 } :
              CertCreationBundle).maxPathLength = 0)) ∧
        (∀ sb, ({ c4Bundle with isCA := true, maxPathLength := 0 } :
            CertCreationBundle).signingBundle = some sb →
          t.isCA = false ∧ t.maxPathLenZero = false))) := by
  refine ⟨.rsa, _, rfl, ?_⟩
  exact claim4_basic_constraints 0
    { c4Bundle with isCA := true, maxPathLength := 0 } .rsa _ rfl

/-- Lookup in the storage view backing the role store: first binding wins. -/
def storeGet (s : List (String × RoleEntry)) (n : String) : Option RoleEntry :=
  match s with
  | [] => none
  | (k, v) :: rest => if k == n then some v else storeGet rest n

/-- `Storage.Put`: bind a key, shadowing any previous binding. -/
def storePut (s : List (String × RoleEntry)) (n : String) (r : RoleEntry) :
    List (String × RoleEntry) :=
  (n, r) :: s

/-- `getRole` (part_000 lines 155-192): read `role/<n>`; when the legacy
`lease`/`lease_max` fields are populated while `ttl`/`max_ttl` are empty,
copy them across, blank the legacy fields, and write the entry back.  The
JSON round-trip through `DecodeJSON`/`StorageEntryJSON` is modelled as the
identity on the stored role.  Returns the role, the storage after the call,
and whether a rewrite was performed. -/
def getRole (s : List (String × RoleEntry)) (n : String) :
    Option RoleEntry × List (String × RoleEntry) × Bool :=
  match storeGet s ("role/" ++ n) with
  | none => (none, s, false)
  | some result0 =>
    let step1 :=
      if result0.TTL.length == 0 && result0.Lease.length != 0 then
        ({ result0 with TTL := result0.Lease, Lease := "" }, true)
      else (result0, false)
    let step2 :=
      if step1.1.MaxTTL.length == 0 && step1.1.LeaseMax.length != 0 then
        ({ step1.1 with MaxTTL := step1.1.LeaseMax, LeaseMax := "" }, true)
      else (step1.1, false)
    let modified := step1.2 || step2.2
    if modified then
      (some step2.1, storePut s ("role/" ++ n) step2.1, true)
    else (some step2.1, s, false)

/-- The migrated shape of a legacy role: `ttl`/`max_ttl` take the legacy
values and the legacy fields are blanked. -/
def migrateLegacy (r : RoleEntry) : RoleEntry :=
  { r with TTL := r.Lease, Lease := "", MaxTTL := r.LeaseMax, LeaseMax := "" }

theorem storeGet_storePut (s : List (String × RoleEntry)) (n : String)
    (r : RoleEntry) : storeGet (storePut s n r) n = some r := by
  simp [storeGet, storePut]

/-- Claim C8: legacy role migration is idempotent.  For a stored role whose
`lease`/`lease_max` are populated while `ttl`/`max_ttl` are empty, the first
`getRole` returns the migrated role — `ttl`/`max_ttl` carrying the legacy
values, `lease`/`lease_max` blanked — and rewrites the stored entry; reading
again at the rewritten store returns the same migrated role and performs no
further rewrite, leaving the store unchanged. -/
theorem claim8_migration_idempotent (s : List (String × RoleEntry))
    (n : String) (r : RoleEntry)
    (hget : storeGet s ("role/" ++ n) = some r)
    (hTTL : r.TTL = "") (hLease : r.Lease ≠ "")
    (hMax : r.MaxTTL = "") (hLeaseMax : r.LeaseMax ≠ "") :
    getRole s n =
      (some (migrateLegacy r),
        storePut s ("role/" ++ n) (migrateLegacy r),
        true) ∧
    getRole (storePut s ("role/" ++ n) (migrateLegacy r)) n =
      (some (migrateLegacy r),
        storePut s ("role/" ++ n) (migrateLegacy r),
        false) := by
  have hLeaseLen : r.Lease.length ≠ 0 := fun hc =>
    hLease ((strLenZeroIff r.Lease).mp (by simp [hc]))
  have hLeaseMaxLen : r.LeaseMax.length ≠ 0 := fun hc =>
    hLeaseMax ((strLenZeroIff r.LeaseMax).mp (by simp [hc]))
  constructor
  · simp [getRole, hget, migrateLegacy, hTTL, hMax, hLeaseLen, hLeaseMaxLen]
  · simp [getRole, storeGet_storePut, migrateLegacy, hLeaseLen, hLeaseMaxLen]

/-- A legacy role: only `lease`/`lease_max` populated. -/
def legacyRole : RoleEntry :=
  { Lease := "24h"
    LeaseMax := "48h"
    AllowLocalhost := true
    AllowIPSANs := true
    ServerFlag := true
    ClientFlag := true
    KeyType := "rsa"
    KeyBits := 2048 }

/-- Witness for C8 at a concrete store holding one legacy role. -/
theorem claim8_migration_idempotent_witness :
    getRole [("role/legacy", legacyRole)] "legacy" =
      (some (migrateLegacy legacyRole),
        storePut [("role/legacy", legacyRole)] "role/legacy"
          (migrateLegacy legacyRole),
        true) ∧
    getRole (storePut [("role/legacy", legacyRole)] "role/legacy"
        (migrateLegacy legacyRole)) "legacy" =
      (some (migrateLegacy legacyRole),
        storePut [("role/legacy", legacyRole)] "role/legacy"
          (migrateLegacy legacyRole),
        false) :=
  claim8_migration_idempotent [("role/legacy", legacyRole)] "legacy"
    legacyRole (by decide) (by decide) (by decide) (by decide) (by decide)

/-- `certutil.CertBundle`, the JSON form stored at `config/ca_bundle` (PEM
strings).  `privateKeyType` is the Go string field; its empty-string zero
value is `PKType.unknown`. -/
structure CertBundleJ where
  certificate : String := ""
  issuingCA : String := ""
  privateKey : String := ""
  privateKeyType : PKType := .unknown
  serialNumber : String := ""
deriving DecidableEq

/-- A parsed private key; `pub` is the abstract identity of `Public()`, and
equality models `reflect.DeepEqual` on the public components. -/
structure XPrivKey where
  pub : Nat := 0
deriving DecidableEq

/-- `certutil.ParsedCertBundle`: the fields read by the CA handlers.
`none`/`[]` model Go `nil` pointers and nil/empty byte slices. -/
structure ParsedCertBundle where
  certificate : Option XCert := none
  certificateBytes : Nat := 0
  issuingCA : Option XCert := none
  issuingCABytes : Nat := 0
  privateKey : Option XPrivKey := none
  privateKeyType : PKType := .unknown
  privateKeyBytes : List Nat := []
deriving DecidableEq

/-- The CA-related storage keys: `config/ca_bundle`, the `ca` mirror (DER
bytes), and the `crl` blob. -/
structure CAStore where
  caBundle : Option CertBundleJ := none
  caBytes : Option Nat := none
  crlBytes : Option (List Nat) := none
deriving DecidableEq

/-- The observable outcome of `pathCASetWrite`: a response-level error
(`logical.ErrorResponse(...), nil`), a transport failure (`nil, err`), a nil
pointer dereference, or success (`nil, nil`). -/
inductive SetCAOutcome
  | errResp (msg : String)
  | fail (msg : String)
  | nilDeref
  | ok
deriving DecidableEq

/-- part_001 lines 459-463: a PEM bundle holding only an issuing CA and no
leaf is treated as a self-signed upload — the issuing CA becomes the
certificate. -/
def promoteSelfSigned (pb : ParsedCertBundle) : ParsedCertBundle :=
  if pb.certificate.isNone && pb.issuingCA.isSome then
    { pb with
      certificate := pb.issuingCA
      certificateBytes := pb.issuingCABytes }
  else pb

/-- part_001 lines 465-498: read `config/ca_bundle`; when a private key is
stored (`PrivateKey` non-empty and `PrivateKeyType` set) while the uploaded
bundle carries none (`UnknownPrivateKey` and nil/empty key bytes), parse the
stored bundle (`toParsed` is `CertBundle.ToParsedCertBundle`) and, when the
stored key's public component equals the uploaded certificate's public key,
attach the stored key to the bundle.  Early exits carry the Go outcome:
parse failure and a nil saved key return transport errors; dereferencing the
certificate of a bundle that has none panics. -/
def correlateStoredKey
    (toParsed : CertBundleJ → Except String ParsedCertBundle)
    (st : CAStore) (pb : ParsedCertBundle) :
    Except SetCAOutcome ParsedCertBundle :=
  match st.caBundle with
  | none => .ok pb
  | some cb =>
    if cb.privateKey.length != 0 && cb.privateKeyType != PKType.unknown &&
        pb.privateKeyType == PKType.unknown && pb.privateKeyBytes.isEmpty then
      match toParsed cb with
      | .error e => .error (.fail e)
      | .ok parsedCB =>
        match parsedCB.privateKey with
        | none => .error (.fail "Encountered nil private key from saved key")
        | some k =>
          match pb.certificate with
          | none => .error .nilDeref
          | some c =>
            if k.pub == c.publicKey then
              .ok { pb with
                privateKey := some k
                privateKeyType := parsedCB.privateKeyType
                privateKeyBytes := parsedCB.privateKeyBytes }
            else .ok pb
    else .ok pb

/-- part_001 lines 500-548, after key association: reject when no private key
is attached, when the key is not RSA, or when the certificate's Basic
Constraints do not mark it as a CA; otherwise convert back (`toCB` is
`ParsedCertBundle.ToCertBundle`) and persist — `config/ca_bundle` holds the
reconciled bundle, `ca` mirrors the certificate bytes, and `crl` is reset to
empty. -/
def caSetFinish (toCB : ParsedCertBundle → Except String CertBundleJ)
    (pb : ParsedCertBundle) (st : CAStore) : SetCAOutcome × CAStore :=
  if pb.privateKey.isNone || pb.privateKeyBytes.isEmpty then
    (.errResp "No private key given and no matching key stored", st)
  else if pb.privateKeyType != PKType.rsa then
    (.errResp "Currently, only RSA keys are supported for the CA certificate",
      st)
  else
    match pb.certificate with
    | none => (.nilDeref, st)
    | some c =>
      if !c.isCA then
        (.errResp "The given certificate is not marked for CA use and cannot be used with this backend",
          st)
      else
        match toCB pb with
        | .error e =>
          (.fail ("Error converting raw values into cert bundle: " ++ e), st)
        | .ok cb2 =>
          (.ok, { st with
            caBundle := some cb2
            caBytes := some pb.certificateBytes
            crlBytes := some [] })

/-- `pathCASetWrite` (part_001 lines 445-549).  `parsePEM` is the outcome of
`certutil.ParsePEMBundle(pem_bundle)`: an internal error is returned as a
transport failure, any other parse error as a response-level error;
otherwise the bundle flows through self-signed promotion, stored-key
correlation, and the final checks and persistence. -/
def pathCASetWrite
    (toParsed : CertBundleJ → Except String ParsedCertBundle)
    (toCB : ParsedCertBundle → Except String CertBundleJ)
    (parsePEM : Except CUErr ParsedCertBundle) (st : CAStore) :
    SetCAOutcome × CAStore :=
  match parsePEM with
  | .error (.internal m) => (.fail m, st)
  | .error (.user m) => (.errResp m, st)
  | .ok pb0 =>
    match correlateStoredKey toParsed st (promoteSelfSigned pb0) with
    | .error o => (o, st)
    | .ok pb => caSetFinish toCB pb st

/-- The `certs/<serial>` storage written by `pathCASignWrite`. -/
structure SignStore where
  certs : List (String × Nat) := []
deriving DecidableEq

/-- The observable outcome of the tail of `pathCASignWrite`: the secret
response carrying the cert-bundle fields and the computed secret TTL, or a
transport failure. -/
inductive SignOutcome
  | resp (data : List (String × String)) (secretTTL : Int)
  | fail (msg : String)
deriving DecidableEq

/-- The Go string of a `certutil.PrivateKeyType`. -/
def pkTypeStr : PKType → String
  | .rsa => "rsa"
  | .ec => "ec"
  | .unknown => ""

/-- The tail of `pathCASignWrite` (part_001 lines 421-442), entered once
`signCert` has succeeded and `ToCertBundle` produced `cb`: build the secret
response from the bundle's fields (`structs.New(cb).Map()`), then write the
DER bytes at `certs/<serial>`.  When that write fails (`putFails`), the
handler returns `nil` and the error `Unable to store certificate locally` —
the already-built response is discarded, so the client receives no
certificate and nothing was persisted. -/
def pathCASignWriteTail (cb : CertBundleJ) (certificateBytes : Nat)
    (notAfter now : Int) (putFails : Bool) (st : SignStore) :
    SignOutcome × SignStore :=
  let data : List (String × String) :=
    [("certificate", cb.certificate),
     ("issuing_ca", cb.issuingCA),
     ("private_key", cb.privateKey),
     ("private_key_type", pkTypeStr cb.privateKeyType),
     ("serial_number", cb.serialNumber)]
  let resp := SignOutcome.resp data (notAfter - now)
  if putFails then (.fail "Unable to store certificate locally", st)
  else
    (resp,
      { st with
        certs := ("certs/" ++ cb.serialNumber, certificateBytes) :: st.certs })

/-- Go `strings.ToLower`. -/
def strToLower (s : String) : String := String.mk (s.toList.map Char.toLower)

/-- The role literal and `key_bits` switch of `pathCAGenerateRoot`
(part_001 lines 219-235): the role hardcodes `KeyType "rsa"` and the
permissive name toggles; only 1024, 2048 and 4096 bits pass. -/
def rootRoleChecked (ttl : String) (kb : Int) : Except String RoleEntry :=
  let role : RoleEntry :=
    { TTL := ttl
      KeyType := "rsa"
      KeyBits := kb
      AllowLocalhost := true
      AllowAnyName := true
      EnforceHostnames := false }
  if kb == 1024 || kb == 2048 || kb == 4096 then .ok role
  else .error "\"key_bits\" must be 1024, 2048, or 4096"

/-- The role literal and `key_bits` switch of `pathCAGenerateIntermediate`
(part_001 lines 307-324): as the root handler, except that a `key_bits` of 0
is accepted and replaced by 2048. -/
def interRoleChecked (kb : Int) : Except String RoleEntry :=
  let role : RoleEntry :=
    { KeyType := "rsa"
      KeyBits := kb
      AllowLocalhost := true
      AllowAnyName := true
      EnforceHostnames := false }
  if kb == 0 then .ok { role with KeyBits := 2048 }
  else if kb == 1024 || kb == 2048 || kb == 4096 then .ok role
  else .error "\"key_bits\" must be 1024, 2048, or 4096"

/-- A value of a response data map. -/
inductive RVal
  | s (v : String)
  | i (v : Int)
  | pk (v : PKType)
deriving DecidableEq

/-- The observable outcome of the generate handlers: a response-level error
(whose data map holds only the `error` key), a transport failure (no data),
or a success response with its data map. -/
inductive GenOutcome
  | errResp (msg : String)
  | fail (msg : String)
  | ok (data : List (String × RVal))
deriving DecidableEq

/-- The data-map keys visible to the client for each outcome. -/
def respKeys : GenOutcome → List String
  | .errResp _ => ["error"]
  | .fail _ => []
  | .ok data => data.map Prod.fst

/-- The result of `generateCert` + `ToCertBundle` inside the root handler:
the JSON bundle, the raw certificate bytes, and the certificate's NotAfter
(for the `expiration` field). -/
structure RootGenOut where
  cb : CertBundleJ := {}
  certificateBytesD : Nat := 0
  notAfter : Int := 0
deriving DecidableEq

/-- The result of `generateCSR` + `ToCSRBundle` inside the intermediate
handler. -/
structure CSRGenOut where
  csr : String := ""
  privateKey : String := ""
  privateKeyType : PKType := .unknown
deriving DecidableEq

/-- The `pki_address` guard chain of `pathCAGenerateRoot` (part_001 lines
200-214): the first failing check's message, or `none` when the lowercased
address passes every check. -/
def rootAddressError (pkiAddress mountPoint : String) : Option String :=
  if pkiAddress.length == 0 then
    some "\"pki_address\" cannot be empty"
  else if !(strStartsWith pkiAddress "http") then
    some "\"pki_address\" must be a URL"
  else if !(strContains pkiAddress "/v1/") then
    some "\"pki_address\" needs to be the path to the PKI mount, not the base Vault path"
  else if !(strContains pkiAddress ("/v1/" ++ strDropLast mountPoint 1)) then
    some "\"pki_address\" needs to be the path to this mount"
  else none

/-- `pathCAGenerateRoot` (part_001 lines 188-293): validate the `exported`
path parameter and `pki_address`, build the hardcoded-RSA role, run
generation (`gen` stands for `generateCert` followed by `ToCertBundle`),
assemble the response — appending `private_key`/`private_key_type` exactly
when `exported = "exported"` — and persist the bundle, the `ca` mirror and a
blank `crl`. -/
def pathCAGenerateRoot (exported pkiAddressRaw mountPoint ttl : String)
    (kb : Int) (gen : RoleEntry → Except CUErr RootGenOut) (st : CAStore) :
    GenOutcome × CAStore :=
  if exported != "exported" && exported != "internal" then
    (.errResp "The \"exported\" path parameter must be \"internal\" or \"exported\"",
      st)
  else
    match rootAddressError (strToLower pkiAddressRaw) mountPoint with
    | some msg => (.errResp msg, st)
    | none =>
      match rootRoleChecked ttl kb with
      | .error msg => (.errResp msg, st)
      | .ok role =>
        match gen role with
        | .error (.user m) => (.errResp m, st)
        | .error (.internal m) => (.fail m, st)
        | .ok out =>
          let respData : List (String × RVal) :=
            [("serial_number", .s out.cb.serialNumber),
             ("certificate", .s out.cb.certificate),
             ("issuing_ca", .s out.cb.issuingCA),
             ("expiration", .i out.notAfter)]
          let respData :=
            if exported == "exported" then
              respData ++
                [("private_key", .s out.cb.privateKey),
                 ("private_key_type", .pk out.cb.privateKeyType)]
            else respData
          (.ok respData,
            { st with
              caBundle := some out.cb
              caBytes := some out.certificateBytesD
              crlBytes := some [] })

/-- `pathCAGenerateIntermediate` (part_001 lines 295-368): validate
`exported`, build the hardcoded-RSA role (`key_bits` 0 becomes 2048), run
CSR generation, assemble the response — appending the private key fields
exactly when `exported = "exported"` — and store at `config/ca_bundle` a
bundle holding only the private key. -/
def pathCAGenerateIntermediate (exported : String) (kb : Int)
    (genCSR : RoleEntry → Except CUErr CSRGenOut) (st : CAStore) :
    GenOutcome × CAStore :=
  if exported != "exported" && exported != "internal" then
    (.errResp "The \"exported\" path parameter must be \"internal\" or \"exported\"",
      st)
  else
    match interRoleChecked kb with
    | .error msg => (.errResp msg, st)
    | .ok role =>
      match genCSR role with
      | .error (.user m) => (.errResp m, st)
      | .error (.internal m) => (.fail m, st)
      | .ok out =>
        let respData : List (String × RVal) := [("csr", .s out.csr)]
        let respData :=
          if exported == "exported" then
            respData ++
              [("private_key", .s out.privateKey),
               ("private_key_type", .pk out.privateKeyType)]
          else respData
        let storedCB : CertBundleJ :=
          { privateKey := out.privateKey
            privateKeyType := out.privateKeyType }
        (.ok respData, { st with caBundle := some storedCB })

theorem isEmpty_false_of_ne_nil {α : Type} {l : List α} (h : l ≠ []) :
    l.isEmpty = false := by
  cases l with
  | nil => exact absurd rfl h
  | cons a as => rfl

/-- Claim C5: reconciliation and checks of `ca.set` (`pathCASetWrite`).
When the uploaded bundle carries no private key but `config/ca_bundle`
holds one whose public component equals the uploaded certificate's public
key, the stored key is attached; the handler returns a response-level error
when no private key can be associated, when the associated key is not RSA,
and when the certificate's Basic Constraints do not mark it as a CA;
otherwise the reconciled bundle is persisted (`config/ca_bundle`, the `ca`
mirror, and an emptied `crl`).  The final conjunct ties `pathCASetWrite` to
the promotion/correlation/finish stages. -/
theorem claim5_ca_set
    (toParsed : CertBundleJ → Except String ParsedCertBundle)
    (toCB : ParsedCertBundle → Except String CertBundleJ)
    (st : CAStore) :
    (∀ pb cb pcb k c,
      st.caBundle = some cb → cb.privateKey ≠ "" →
      cb.privateKeyType ≠ PKType.unknown →
      pb.privateKeyType = PKType.unknown → pb.privateKeyBytes = [] →
      toParsed cb = .ok pcb → pcb.privateKey = some k →
      pb.certificate = some c → k.pub = c.publicKey →
      correlateStoredKey toParsed st pb =
        .ok { pb with
          privateKey := some k
          privateKeyType := pcb.privateKeyType
          privateKeyBytes := pcb.privateKeyBytes }) ∧
    (∀ pb, pb.privateKey = none ∨ pb.privateKeyBytes = [] →
      caSetFinish toCB pb st =
        (.errResp "No private key given and no matching key stored", st)) ∧
    (∀ pb k, pb.privateKey = some k → pb.privateKeyBytes ≠ [] →
      pb.privateKeyType ≠ PKType.rsa →
      caSetFinish toCB pb st =
        (.errResp "Currently, only RSA keys are supported for the CA certificate",
          st)) ∧
    (∀ pb k c, pb.privateKey = some k → pb.privateKeyBytes ≠ [] →
      pb.privateKeyType = PKType.rsa → pb.certificate = some c →
      c.isCA = false →
      caSetFinish toCB pb st =
        (.errResp "The given certificate is not marked for CA use and cannot be used with this backend",
          st)) ∧
    (∀ pb k c cb2, pb.privateKey = some k → pb.privateKeyBytes ≠ [] →
      pb.privateKeyType = PKType.rsa → pb.certificate = some c →
      c.isCA = true → toCB pb = .ok cb2 →
      caSetFinish toCB pb st =
        (.ok, { st with
          caBundle := some cb2
          caBytes := some pb.certificateBytes
          crlBytes := some [] })) ∧
    (∀ pb, pathCASetWrite toParsed toCB (.ok pb) st =
      (match correlateStoredKey toParsed st (promoteSelfSigned pb) with
        | .error o => (o, st)
        | .ok pb2 => caSetFinish toCB pb2 st)) := by
  refine ⟨?_, ?_, ?_, ?_, ?_, fun _ => rfl⟩
  · rintro pb cb pcb k c hst hpk hpt hbt hbb htp hkk hc hpub
    have h1 : cb.privateKey.length ≠ 0 := fun hz =>
      hpk ((strLenZeroIff _).mp (by simp [hz]))
    simp [correlateStoredKey, hst, h1, hpt, hbt, hbb, htp, hkk, hc, hpub]
  · rintro pb (h | h) <;> simp [caSetFinish, h]
  · rintro pb k hk hbb hrsa
    simp [caSetFinish, hk, isEmpty_false_of_ne_nil hbb, hrsa]
  · rintro pb k c hk hbb hrsa hc hca
    simp [caSetFinish, hk, isEmpty_false_of_ne_nil hbb, hrsa, hc, hca]
  · rintro pb k c cb2 hk hbb hrsa hc hca htc
    simp [caSetFinish, hk, isEmpty_false_of_ne_nil hbb, hrsa, hc, hca, htc]

/-- The concrete CA certificate of the C5 witness scenario. -/
def c5Cert : XCert := { publicKey := 42, isCA := true }

/-- The stored JSON bundle of the C5 witness: a private key without a
certificate, as left behind by `ca.generateIntermediate`. -/
def c5Stored : CertBundleJ := { privateKey := "PEMKEY", privateKeyType := .rsa }

/-- The uploaded bundle of the C5 witness: a CA certificate, no key. -/
def c5Parsed : ParsedCertBundle :=
  { certificate := some c5Cert, certificateBytes := 9 }

/-- The parse of the stored bundle in the C5 witness: an RSA key whose
public component matches the uploaded certificate. -/
def c5StoredParsed : ParsedCertBundle :=
  { privateKey := some { pub := 42 }
    privateKeyType := .rsa
    privateKeyBytes := [1, 2] }

/-- Witness for C5: the stored key is attached to a key-less upload whose
certificate matches it. -/
theorem claim5_ca_set_witness :
    correlateStoredKey (fun _ => .ok c5StoredParsed)
      { caBundle := some c5Stored } c5Parsed =
      .ok { c5Parsed with
        privateKey := some { pub := 42 }
        privateKeyType := PKType.rsa
        privateKeyBytes := [1, 2] } :=
  (claim5_ca_set (fun _ => .ok c5StoredParsed) (fun _ => .ok {})
    { caBundle := some c5Stored }).1 c5Parsed c5Stored c5StoredParsed
    { pub := 42 } c5Cert rfl (by decide) (by decide) rfl rfl rfl rfl rfl rfl

/-- A concrete signed-certificate bundle for the C6 scenario. -/
def c6Bundle : CertBundleJ :=
  { certificate := "PEM CERT"
    issuingCA := "PEM CA"
    privateKeyType := .rsa
    serialNumber := "aa:bb" }

/-- Counterexample to claim C6 as stated: when signing succeeded but the
`certs/<serial>` write fails, the claim says the signed certificate is still
returned to the client; the handler instead returns the transport error
`Unable to store certificate locally` and no response — the certificate is
neither persisted nor returned. -/
theorem claim6_counterexample :
    pathCASignWriteTail c6Bundle 7 1000 0 true {} =
      (.fail "Unable to store certificate locally", {}) ∧
    (pathCASignWriteTail c6Bundle 7 1000 0 true {}).2.certs = [] := by
  decide

/-- Claim C6 (amended): for every ca.sign request in which signing succeeds
but the `certs/<serial>` write fails, the handler returns the transport
error and discards the already-built response: the client receives no
certificate and storage is unchanged, so the signed certificate is lost.
When the write succeeds, the response carries the bundle fields and the
certificate is persisted under `certs/<serial>`. -/
theorem claim6_sign_store_failure (cb : CertBundleJ) (bytes : Nat)
    (notAfter now : Int) (st : SignStore) :
    pathCASignWriteTail cb bytes notAfter now true st =
      (.fail "Unable to store certificate locally", st) ∧
    pathCASignWriteTail cb bytes notAfter now false st =
      (.resp
        [("certificate", cb.certificate),
         ("issuing_ca", cb.issuingCA),
         ("private_key", cb.privateKey),
         ("private_key_type", pkTypeStr cb.privateKeyType),
         ("serial_number", cb.serialNumber)] (notAfter - now),
        { st with
          certs := ("certs/" ++ cb.serialNumber, bytes) :: st.certs }) :=
  ⟨rfl, rfl⟩

/-- Claim C9: the generate handlers return `private_key` and
`private_key_type` in a success response exactly when the `exported` path
parameter is `"exported"`; with `"internal"` the private key appears in no
response of either handler. -/
theorem claim9_private_key_export (exported pkiAddressRaw mountPoint ttl :
    String) (kb : Int) (gen : RoleEntry → Except CUErr RootGenOut)
    (genCSR : RoleEntry → Except CUErr CSRGenOut) (st : CAStore) :
    (∀ data st2,
      pathCAGenerateRoot exported pkiAddressRaw mountPoint ttl kb gen st =
        (.ok data, st2) →
      (("private_key" ∈ data.map Prod.fst) ↔ exported = "exported") ∧
      (("private_key_type" ∈ data.map Prod.fst) ↔ exported = "exported")) ∧
    (∀ data st2,
      pathCAGenerateIntermediate exported kb genCSR st = (.ok data, st2) →
      (("private_key" ∈ data.map Prod.fst) ↔ exported = "exported") ∧
      (("private_key_type" ∈ data.map Prod.fst) ↔ exported = "exported")) ∧
    (exported = "internal" →
      "private_key" ∉
        respKeys (pathCAGenerateRoot exported pkiAddressRaw mountPoint ttl kb
          gen st).1 ∧
      "private_key" ∉
        respKeys (pathCAGenerateIntermediate exported kb genCSR st).1) := by
  have hroot : ∀ data st2,
      pathCAGenerateRoot exported pkiAddressRaw mountPoint ttl kb gen st =
        (.ok data, st2) →
      (("private_key" ∈ data.map Prod.fst) ↔ exported = "exported") ∧
      (("private_key_type" ∈ data.map Prod.fst) ↔ exported = "exported") := by
    intro data st2 h
    simp only [pathCAGenerateRoot] at h
    split at h
    · simp at h
    · rename_i hguard
      have hcase : exported = "exported" ∨ exported = "internal" := by
        by_cases h1 : exported = "exported"
        · exact Or.inl h1
        · by_cases h2 : exported = "internal"
          · exact Or.inr h2
          · exact absurd (by simp [h1, h2]) hguard
      split at h
      · simp at h
      · split at h
        · simp at h
        · split at h
          · simp at h
          · simp at h
          · simp only [Prod.mk.injEq, GenOutcome.ok.injEq] at h
            obtain ⟨hdata, -⟩ := h
            subst hdata
            rcases hcase with rfl | rfl <;> simp
  have hinter : ∀ data st2,
      pathCAGenerateIntermediate exported kb genCSR st = (.ok data, st2) →
      (("private_key" ∈ data.map Prod.fst) ↔ exported = "exported") ∧
      (("private_key_type" ∈ data.map Prod.fst) ↔ exported = "exported") := by
    intro data st2 h
    simp only [pathCAGenerateIntermediate] at h
    split at h
    · simp at h
    · rename_i hguard
      have hcase : exported = "exported" ∨ exported = "internal" := by
        by_cases h1 : exported = "exported"
        · exact Or.inl h1
        · by_cases h2 : exported = "internal"
          · exact Or.inr h2
          · exact absurd (by simp [h1, h2]) hguard
      split at h
      · simp at h
      · split at h
        · simp at h
        · simp at h
        · simp only [Prod.mk.injEq, GenOutcome.ok.injEq] at h
          obtain ⟨hdata, -⟩ := h
          subst hdata
          rcases hcase with rfl | rfl <;> simp
  refine ⟨hroot, hinter, ?_⟩
  rintro rfl
  constructor
  · rcases hres : pathCAGenerateRoot "internal" pkiAddressRaw mountPoint ttl
      kb gen st with ⟨o, st2⟩
    cases o with
    | errResp m => simp [respKeys]
    | fail m => simp [respKeys]
    | ok data =>
      have hiff := (hroot data st2 hres).1
      simp only [respKeys]
      rw [hiff]
      simp
  · rcases hres : pathCAGenerateIntermediate "internal" kb genCSR st
      with ⟨o, st2⟩
    cases o with
    | errResp m => simp [respKeys]
    | fail m => simp [respKeys]
    | ok data =>
      have hiff := (hinter data st2 hres).1
      simp only [respKeys]
      rw [hiff]
      simp

/-- A successful generation outcome used by the C9 witness. -/
def c9GenOut : RootGenOut :=
  { cb := { certificate := "CERT"
            issuingCA := "CERT"
            privateKey := "KEY"
            privateKeyType := .rsa
            serialNumber := "0a:0b" }
    certificateBytesD := 5
    notAfter := 99 }

/-- Witness for C9 at a concrete successful `exported` run of the root
handler. -/
theorem claim9_private_key_export_witness :
    (("private_key" ∈
      ([("serial_number", RVal.s "0a:0b"), ("certificate", RVal.s "CERT"),
        ("issuing_ca", RVal.s "CERT"), ("expiration", RVal.i 99)] ++
        [("private_key", RVal.s "KEY"),
         ("private_key_type", RVal.pk PKType.rsa)]).map Prod.fst) ↔
      "exported" = "exported") ∧
    (("private_key_type" ∈
      ([("serial_number", RVal.s "0a:0b"), ("certificate", RVal.s "CERT"),
        ("issuing_ca", RVal.s "CERT"), ("expiration", RVal.i 99)] ++
        [("private_key", RVal.s "KEY"),
         ("private_key_type", RVal.pk PKType.rsa)]).map Prod.fst) ↔
      "exported" = "exported") :=
  (claim9_private_key_export "exported" "http/v1/x" "x/" "" 2048
    (fun _ => .ok c9GenOut) (fun _ => .ok {}) {}).1
    ([("serial_number", RVal.s "0a:0b"), ("certificate", RVal.s "CERT"),
      ("issuing_ca", RVal.s "CERT"), ("expiration", RVal.i 99)] ++
      [("private_key", RVal.s "KEY"),
       ("private_key_type", RVal.pk PKType.rsa)])
    { caBundle := some c9GenOut.cb
      caBytes := some 5
      crlBytes := some [] }
    (by decide)

/-- Counterexample to claim C10 as stated: the claim says both handlers
accept only `key_bits` 1024, 2048, or 4096.  The intermediate handler also
accepts 0 — its switch maps 0 to 2048 instead of rejecting — so 0 passes
validation although it is not one of the three listed values. -/
theorem claim10_counterexample :
    interRoleChecked 0 = .ok
      { KeyType := "rsa"
        KeyBits := 2048
        AllowLocalhost := true
        AllowAnyName := true
        EnforceHostnames := false } ∧
    (0 : Int) ∉ ([1024, 2048, 4096] : List Int) := by
  decide

/-- Claim C10 (amended): both handlers hardcode `KeyType "rsa"` in the role
they construct.  The root handler accepts exactly `key_bits`
1024/2048/4096; the intermediate handler accepts those and additionally 0,
which it normalizes to 2048 — so both reject 8192 and every EC curve
selector, every accepted role carries `KeyType "rsa"` with bits in
1024/2048/4096, and the key factory generates an RSA key (never an EC key)
for such a role. -/
theorem claim10_rsa_only (ttl : String) (kb : Int) :
    ((∃ r, rootRoleChecked ttl kb = .ok r) ↔
      kb ∈ ([1024, 2048, 4096] : List Int)) ∧
    (∀ r, rootRoleChecked ttl kb = .ok r →
      r.KeyType = "rsa" ∧ r.KeyBits ∈ ([1024, 2048, 4096] : List Int)) ∧
    ((∃ r, interRoleChecked kb = .ok r) ↔
      kb ∈ ([0, 1024, 2048, 4096] : List Int)) ∧
    (∀ r, interRoleChecked kb = .ok r →
      r.KeyType = "rsa" ∧ r.KeyBits ∈ ([1024, 2048, 4096] : List Int)) ∧
    (∀ now ci pt t, ci.keyType = "rsa" →
      createCertificateTemplate now ci = .ok (pt, t) → pt = PKType.rsa) := by
  refine ⟨?_, ?_, ?_, ?_, ?_⟩
  · constructor
    · rintro ⟨r, hr⟩
      simp only [rootRoleChecked] at hr
      split at hr
      · rename_i hc
        simpa [or_assoc] using hc
      · simp at hr
    · intro hmem
      simp only [List.mem_cons, List.not_mem_nil, or_false] at hmem
      rcases hmem with rfl | rfl | rfl <;> exact ⟨_, rfl⟩
  · intro r hr
    simp only [rootRoleChecked] at hr
    split at hr
    · rename_i hc
      simp only [Except.ok.injEq] at hr
      subst hr
      exact ⟨rfl, by simpa [or_assoc] using hc⟩
    · simp at hr
  · constructor
    · rintro ⟨r, hr⟩
      simp only [interRoleChecked] at hr
      split at hr
      · rename_i hc
        simp only [List.mem_cons]
        exact Or.inl (by simpa using hc)
      · split at hr
        · rename_i hc
          simp only [List.mem_cons]
          have := (by simpa [or_assoc] using hc :
            kb = 1024 ∨ kb = 2048 ∨ kb = 4096)
          tauto
        · simp at hr
    · intro hmem
      simp only [List.mem_cons, List.not_mem_nil, or_false] at hmem
      rcases hmem with rfl | rfl | rfl | rfl <;> exact ⟨_, rfl⟩
  · intro r hr
    simp only [interRoleChecked] at hr
    split at hr
    · simp only [Except.ok.injEq] at hr
      subst hr
      exact ⟨rfl, by simp⟩
    · split at hr
      · rename_i hc
        simp only [Except.ok.injEq] at hr
        subst hr
        exact ⟨rfl, by simpa [or_assoc] using hc⟩
      · simp at hr
  · intro now ci pt t hkt h
    simp [createCertificateTemplate, hkt] at h
    split at h <;> simp_all

/-- Witness for C10: 8192 bits — allowed for RSA by the role store — is
rejected by the root handler, and a 2048-bit role is accepted with RSA key
type. -/
theorem claim10_rsa_only_witness :
    ((∃ r, rootRoleChecked "" 8192 = .ok r) ↔
      (8192 : Int) ∈ ([1024, 2048, 4096] : List Int)) ∧
    ((∃ r, interRoleChecked 256 = .ok r) ↔
      (256 : Int) ∈ ([0, 1024, 2048, 4096] : List Int)) :=
  ⟨(claim10_rsa_only "" 8192).1, (claim10_rsa_only "" 256).2.2.1⟩

end Pki
